import Mathlib

/-!
Verification development for the litex-boards targets
`digilent_zedboard.py` and `xilinx_kv260.py` and the platform file
`platforms/xilinx_kv260.py`.

The board files are shallowly embedded: migen signal references become a
`Sig` inductive, the `_CRG.__init__` constructor becomes a pure function
from an explicit `Platform` state to a `CRG` record paired with the
updated `Platform` state, and the hard-CPU integration blocks of the two
`BaseSoC.__init__` constructors become pure functions producing the
registered regions, the adjusted keyword arguments and the construction
event order.  The parts of the address-map and clocking core that live in
the external litex library (the AXI-to-Wishbone bridge, the region
overlap check of the bus, the PLL frequency check) are modelled from the
spec, each marked by a doc comment.
-/

/-- Migen signal references as they appear syntactically in the two board
files.  `clockSignal d` / `resetSignal d` are `ClockSignal(d)` /
`ResetSignal(d)`, `crgRst` is the CRG's `self.rst`, `pllReset` and
`pllClkin` are `pll.reset` and `pll.clkin`, `platformPin n` is the signal
returned by `platform.request(n)`, and `orSig` is the `|` operator on
signals. -/
inductive Sig where
  | clockSignal (domain : String)
  | resetSignal (domain : String)
  | crgRst
  | pllReset
  | pllClkin
  | platformPin (name : String)
  | orSig (a b : Sig)
deriving DecidableEq, Repr

/-- The platform state visible to the board files: the default clock
name and frequency, the list of resources consumed by
`platform.request`, and the accumulated false-path constraint set
extended by `platform.add_false_path_constraints`. -/
structure Platform where
  defaultClkName : String
  defaultClkFreq : Nat
  requested : List String
  falsePaths : List (Sig × Sig)
deriving DecidableEq, Repr

/-- The S7PLL submodule configuration as set up by `_CRG.__init__`:
`speedgrade` from the constructor argument, `clkin` from
`register_clkin` (the requested platform pin and its frequency), and
`clkouts` from `create_clkout` (clock-domain name and target
frequency). -/
structure S7PLL where
  speedgrade : Int
  clkin : Option (Sig × Nat)
  clkouts : List (String × Nat)
deriving DecidableEq, Repr

/-- The state built by `_CRG.__init__`: the local reset request signal
`self.rst`, the list of combinatorial assignments `self.comb`
(target, source), and the optional PLL submodule. -/
structure CRG where
  rst : Sig
  comb : List (Sig × Sig)
  pll : Option S7PLL
deriving DecidableEq, Repr

/-- Shallow embedding of `_CRG.__init__` from both board files; the two
files differ only in the name of the hard-core clock domain (`"ps7"` on
the Zedboard, `"ps"` on the KV260), passed here as `psDomain`.  Returns
the constructed CRG together with the platform state after
construction. -/
def crgInit (psDomain : String) (platform : Platform) (sysClkFreq : Nat)
    (usePs7Clk : Bool) : CRG × Platform :=
  if usePs7Clk then
    ({ rst := Sig.crgRst,
       comb := [(Sig.clockSignal "sys", Sig.clockSignal psDomain),
                (Sig.resetSignal "sys",
                 Sig.orSig (Sig.resetSignal psDomain) Sig.crgRst)],
       pll := none },
     platform)
  else
    ({ rst := Sig.crgRst,
       comb := [(Sig.pllReset, Sig.crgRst)],
       pll := some { speedgrade := -1,
                     clkin := some (Sig.platformPin platform.defaultClkName,
                                    platform.defaultClkFreq),
                     clkouts := [("sys", sysClkFreq)] } },
     { platform with
         requested := platform.defaultClkName :: platform.requested,
         falsePaths := (Sig.clockSignal "sys", Sig.pllClkin)
                         :: platform.falsePaths })

/-- The Zedboard composer passes `use_ps7_clk = True` exactly when the
selected CPU type is the hard core `"zynq7000"`. -/
def zedboardUsePs7Clk (cpuType : Option String) : Bool :=
  cpuType == some "zynq7000"

/-- The KV260 composer passes `use_ps7_clk = True` exactly when the
selected CPU type is the hard core `"zynqmp"`. -/
def kv260UsePs7Clk (cpuType : Option String) : Bool :=
  cpuType == some "zynqmp"

/-- CRG construction as performed by the Zedboard `BaseSoC.__init__`
(`_CRG(platform, sys_clk_freq, use_ps7_clk)` with the hard-core domain
`"ps7"`). -/
def zedboardCrg (cpuType : Option String) (platform : Platform)
    (sysClkFreq : Nat) : CRG × Platform :=
  crgInit "ps7" platform sysClkFreq (zedboardUsePs7Clk cpuType)

/-- CRG construction as performed by the KV260 `BaseSoC.__init__`
(`_CRG(platform, sys_clk_freq, use_ps7_clk)` with the hard-core domain
`"ps"`). -/
def kv260Crg (cpuType : Option String) (platform : Platform)
    (sysClkFreq : Nat) : CRG × Platform :=
  crgInit "ps" platform sysClkFreq (kv260UsePs7Clk cpuType)

/-- The `mem_map` CSR base of the KV260 `BaseSoC`
(`{"csr": 0xA000_0000}`, the default GP0 address on ZynqMP). -/
def kv260MemMapCsr : Nat := 0xA0000000

/-- The `mem_map` CSR base set by the Zedboard `BaseSoC` for the hard
CPU (`{'csr': 0x4000_0000}`, the Zynq GP0 default). -/
def zedboardMemMapCsr : Nat := 0x40000000

/-- What the optional hard-CPU collaborator reports: the origins of its
DRAM (`sram`) and boot-ROM windows (`self.cpu.mem_map` in the KV260
file) and the sizes of the installed DRAM and boot ROM. -/
structure CpuReport where
  sramOrigin : Nat
  romOrigin : Nat
  dramSize : Nat
  romSize : Nat
deriving DecidableEq, Repr

/-- A region registered with `self.bus.add_region`: name, `origin`,
`size` and the `linker` flag of the `SoCRegion` argument. -/
structure RegionSpec where
  name : String
  origin : Nat
  size : Nat
  linker : Bool
deriving DecidableEq, Repr

/-- The two regions registered by the KV260 `BaseSoC.__init__` when the
hard CPU is selected: `sram` at `self.cpu.mem_map["sram"]` with literal
size `2 * 1024 * 1024 * 1024` and `rom` at `self.cpu.mem_map["rom"]`
with literal size `512 * 1024 * 1024 // 8`, the latter linker-visible. -/
def kv260HardCpuRegions (cpu : CpuReport) : List RegionSpec :=
  [{ name := "sram", origin := cpu.sramOrigin,
     size := 2 * 1024 * 1024 * 1024, linker := false },
   { name := "rom", origin := cpu.romOrigin,
     size := 512 * 1024 * 1024 / 8, linker := true }]

/-- The two regions registered by the Zedboard `BaseSoC.__init__` when
the hard CPU is selected: `sram` at `self.mem_map["sram"]` with literal
size `512 * 1024 * 1024` and `rom` at `self.mem_map["rom"]` with literal
size `32 * 1024 * 1024`, the latter linker-visible.  The two origins are
the SoC memory-map entries merged from the CPU by the external SoCCore,
passed here as parameters. -/
def zedboardHardCpuRegions (memMapSram memMapRom : Nat) : List RegionSpec :=
  [{ name := "sram", origin := memMapSram,
     size := 512 * 1024 * 1024, linker := false },
   { name := "rom", origin := memMapRom,
     size := 32 * 1024 * 1024, linker := true }]

/-- The keyword arguments of `BaseSoC.__init__` that the two composers
inspect or overwrite before delegating to `SoCCore.__init__`. -/
structure SoCKwargs where
  cpuType : Option String
  integratedSramSize : Nat
  withUart : Bool
deriving DecidableEq, Repr

/-- The Zedboard composer's keyword-argument adjustment: when the
selected CPU type is `"zynq7000"` it sets `integrated_sram_size = 0` and
`with_uart = False`; otherwise the arguments pass through unchanged. -/
def zedboardAdjustKwargs (k : SoCKwargs) : SoCKwargs :=
  if k.cpuType == some "zynq7000" then
    { k with integratedSramSize := 0, withUart := false }
  else k

/-- The KV260 composer's keyword-argument adjustment: when the selected
CPU type is `"zynqmp"` it sets `integrated_sram_size = 0`; otherwise the
arguments pass through unchanged. -/
def kv260AdjustKwargs (k : SoCKwargs) : SoCKwargs :=
  if k.cpuType == some "zynqmp" then
    { k with integratedSramSize := 0 }
  else k

/-- Construction events of a `BaseSoC.__init__` run, in program order. -/
inductive SoCEvent where
  | platformInit
  | cpuInit
  | busFabricInit
  | peripheralInit (name : String)
  | bridgeInit
  | regionAdd (name : String)
  | crgBuild
deriving DecidableEq, Repr

/-- Modelled from the spec: the internal construction order of the
external `SoCCore.__init__` (not part of this repository) — it
instantiates the CPU, then the bus fabric, then the integrated
peripherals, per spec section 4.5. -/
def socCoreEvents : List SoCEvent :=
  [SoCEvent.cpuInit, SoCEvent.busFabricInit,
   SoCEvent.peripheralInit "integrated"]

/-- Construction event order of the Zedboard `BaseSoC.__init__`:
platform, `SoCCore.__init__`, then (for the hard CPU) the bridge and the
two region registrations, then the CRG, and finally — after the CRG —
the LED-chaser peripheral when enabled. -/
def zedboardEvents (cpuType : Option String) (withLedChaser : Bool) :
    List SoCEvent :=
  SoCEvent.platformInit :: socCoreEvents
    ++ (if cpuType == some "zynq7000" then
          [SoCEvent.bridgeInit, SoCEvent.regionAdd "sram",
           SoCEvent.regionAdd "rom"]
        else [])
    ++ [SoCEvent.crgBuild]
    ++ (if withLedChaser then [SoCEvent.peripheralInit "leds"] else [])

/-- Construction event order of the KV260 `BaseSoC.__init__`: platform,
`SoCCore.__init__`, then (for the hard CPU) the bridge and the two
region registrations, and the CRG last. -/
def kv260Events (cpuType : Option String) : List SoCEvent :=
  SoCEvent.platformInit :: socCoreEvents
    ++ (if cpuType == some "zynqmp" then
          [SoCEvent.bridgeInit, SoCEvent.regionAdd "sram",
           SoCEvent.regionAdd "rom"]
        else [])
    ++ [SoCEvent.crgBuild]

/-- Index of the first occurrence of an event in an event list. -/
def eventIdx (l : List SoCEvent) (e : SoCEvent) : Nat :=
  l.findIdx (fun x => x == e)

/-- Modelled from the spec: the Protocol Bridge (the external litex
`axi.AXI2Wishbone` instantiated by both composers, not part of this
repository) forwards each issued address offset by its `base_address`
(spec section 4.2). -/
def bridgeForward (baseAddress issued : Nat) : Nat :=
  issued + baseAddress

/-- A sequence of bridged transactions is forwarded in order, each
address offset by the bridge's `base_address`. -/
def bridgeForwardSeq (baseAddress : Nat) (issued : List Nat) : List Nat :=
  issued.map (bridgeForward baseAddress)

/-- An address region of the Region Registry. -/
structure Region where
  name : String
  origin : Nat
  size : Nat
deriving DecidableEq, Repr

/-- Two regions are disjoint when their half-open intervals
`[origin, origin + size)` do not intersect. -/
def disjointB (a b : Region) : Bool :=
  decide (a.origin + a.size ≤ b.origin)
    || decide (b.origin + b.size ≤ a.origin)

/-- Membership of an address in a region's half-open interval. -/
def inRegion (r : Region) (x : Nat) : Prop :=
  r.origin ≤ x ∧ x < r.origin + r.size

/-- Every region of the list is pairwise disjoint from every later
one. -/
def pairwiseDisjointB : List Region → Bool
  | [] => true
  | r :: rest => rest.all (fun q => disjointB r q) && pairwiseDisjointB rest

/-- Errors of the Region Registry. -/
inductive RegionError where
  | RegionConflict
  | AlignmentError
deriving DecidableEq, Repr

/-- Modelled from the spec: `add_region` of the Region Registry (the
external litex `self.bus.add_region` called by both composers, not part
of this repository) — it rejects a region whose origin is not aligned to
its size with `AlignmentError`, rejects a region whose interval overlaps
an existing region with `RegionConflict`, and otherwise appends the
region (spec section 4.1). -/
def addRegion (regs : List Region) (r : Region) :
    Except RegionError (List Region) :=
  if r.size == 0 || !(r.origin % r.size == 0) then
    Except.error RegionError.AlignmentError
  else if regs.all (fun q => disjointB q r) then
    Except.ok (regs ++ [r])
  else
    Except.error RegionError.RegionConflict

/-- The spec scenario's SRAM region: origin 0x0, size 512 MiB. -/
def sramRegion : Region := { name := "sram", origin := 0, size := 536870912 }

/-- The spec scenario's ROM region: origin 0x20000000, size 32 MiB. -/
def romRegion : Region :=
  { name := "rom", origin := 536870912, size := 33554432 }

/-- The spec scenario's conflicting region: origin 0x1FF00000, size
4 KiB, overlapping the SRAM region's tail. -/
def conflictRegion : Region :=
  { name := "overlap", origin := 535822336, size := 4096 }

/-- Errors of the clocking core. -/
inductive ClockError where
  | UnachievableFrequency
deriving DecidableEq, Repr

/-- Modelled from the spec: the achievable-frequency data of the
external S7PLL (not part of this repository), as the set of supported
(multiplier, divisor) pairs applied to the reference frequency. -/
structure PllModel where
  refFreq : Nat
  supported : List (Nat × Nat)
deriving DecidableEq, Repr

/-- A target frequency is achievable when some supported
(multiplier, divisor) pair maps the reference frequency to it. -/
def pllAchievable (pll : PllModel) (target : Nat) : Bool :=
  pll.supported.any (fun md => pll.refFreq * md.1 == target * md.2)

/-- The PLL wiring produced on success: the reset driver, the registered
input clock and the created output clocks. -/
structure PllWiring where
  resetDriver : Sig
  clkin : Sig × Nat
  clkouts : List (String × Nat)
deriving DecidableEq, Repr

/-- Modelled from the spec: CRG construction in internal-PLL mode with
the external S7PLL's frequency check made explicit — an unachievable
target frequency is a construction-time `UnachievableFrequency` error
producing no wiring and no platform change; on success the single output
clock is created at exactly the requested frequency and the false-path
constraint is added (spec section 4.4). -/
def crgInitPllChecked (platform : Platform) (pll : PllModel)
    (sysClkFreq : Nat) : Except ClockError (PllWiring × Platform) :=
  if pllAchievable pll sysClkFreq then
    Except.ok
      ({ resetDriver := Sig.crgRst,
         clkin := (Sig.platformPin platform.defaultClkName,
                   platform.defaultClkFreq),
         clkouts := [("sys", sysClkFreq)] },
       { platform with
           requested := platform.defaultClkName :: platform.requested,
           falsePaths := (Sig.clockSignal "sys", Sig.pllClkin)
                           :: platform.falsePaths })
  else
    Except.error ClockError.UnachievableFrequency

/-- C1: for every CRG construction exactly one clock source is
configured, chosen once by `use_ps7_clk` and fixed thereafter: with
`use_ps7_clk = True` no PLL submodule exists, otherwise exactly one PLL
is instantiated, driven by the platform's default clock, with one output
clock at the requested system frequency; each board composer selects
passthrough exactly when its hard CPU type is chosen. -/
theorem C1_single_clock_source (psDomain : String) (cpuType : Option String)
    (p : Platform) (f : Nat) :
    (crgInit psDomain p f true).1.pll = none
  ∧ (crgInit psDomain p f false).1.pll =
      some { speedgrade := -1,
             clkin := some (Sig.platformPin p.defaultClkName,
                            p.defaultClkFreq),
             clkouts := [("sys", f)] }
  ∧ (zedboardCrg cpuType p f).1.pll =
      (if zedboardUsePs7Clk cpuType then none
       else some { speedgrade := -1,
                   clkin := some (Sig.platformPin p.defaultClkName,
                                  p.defaultClkFreq),
                   clkouts := [("sys", f)] })
  ∧ (kv260Crg cpuType p f).1.pll =
      (if kv260UsePs7Clk cpuType then none
       else some { speedgrade := -1,
                   clkin := some (Sig.platformPin p.defaultClkName,
                                  p.defaultClkFreq),
                   clkouts := [("sys", f)] }) := by
  refine ⟨rfl, rfl, ?_, ?_⟩
  · cases h : zedboardUsePs7Clk cpuType <;>
      simp [zedboardCrg, crgInit, h]
  · cases h : kv260UsePs7Clk cpuType <;>
      simp [kv260Crg, crgInit, h]

/-- C2: with `use_ps7_clk = True` the system clock is combinatorially
wired to the hard core's clock and the system reset is the OR of the
hard core's reset and the CRG's `self.rst`; instantiated for both
boards with their hard-core domains `"ps7"` and `"ps"`. -/
theorem C2_passthrough_wiring (psDomain : String) (p : Platform) (f : Nat) :
    (crgInit psDomain p f true).1.rst = Sig.crgRst
  ∧ (crgInit psDomain p f true).1.comb =
      [(Sig.clockSignal "sys", Sig.clockSignal psDomain),
       (Sig.resetSignal "sys",
        Sig.orSig (Sig.resetSignal psDomain) Sig.crgRst)]
  ∧ (zedboardCrg (some "zynq7000") p f).1.comb =
      [(Sig.clockSignal "sys", Sig.clockSignal "ps7"),
       (Sig.resetSignal "sys",
        Sig.orSig (Sig.resetSignal "ps7") Sig.crgRst)]
  ∧ (kv260Crg (some "zynqmp") p f).1.comb =
      [(Sig.clockSignal "sys", Sig.clockSignal "ps"),
       (Sig.resetSignal "sys",
        Sig.orSig (Sig.resetSignal "ps") Sig.crgRst)] :=
  ⟨rfl, rfl, rfl, rfl⟩

/-- C3: a bridged master's forwarded address equals the issued address
plus the bridge's `base_address`; with the KV260 bridge instantiated at
`mem_map["csr"] = 0xA0000000`, issued address 0x10 is forwarded to
0xA0000010; transaction sequences are forwarded pointwise in order. -/
theorem C3_bridge_address_offset (base a : Nat) (txns : List Nat) :
    bridgeForward base a = a + base
  ∧ kv260MemMapCsr = 0xA0000000
  ∧ bridgeForward kv260MemMapCsr 0x10 = 0xA0000010
  ∧ (bridgeForwardSeq base txns).length = txns.length
  ∧ (∀ i : Nat, (bridgeForwardSeq base txns)[i]? =
      (txns[i]?).map (bridgeForward base)) :=
  ⟨rfl, rfl, rfl, by simp [bridgeForwardSeq],
   fun i => by simp [bridgeForwardSeq]⟩

/-- C10: when the board's hard CPU type is selected the composer forces
`integrated_sram_size` to 0 (and on the Zedboard also forces the soft
UART off); for any other CPU type the caller-supplied keyword arguments
pass through unchanged. -/
theorem C10_hard_cpu_kwargs (k : SoCKwargs) :
    zedboardAdjustKwargs k =
      (if k.cpuType == some "zynq7000" then
         { k with integratedSramSize := 0, withUart := false }
       else k)
  ∧ (zedboardAdjustKwargs k).cpuType = k.cpuType
  ∧ kv260AdjustKwargs k =
      (if k.cpuType == some "zynqmp" then
         { k with integratedSramSize := 0 }
       else k)
  ∧ (kv260AdjustKwargs k).cpuType = k.cpuType
  ∧ (kv260AdjustKwargs k).withUart = k.withUart := by
  refine ⟨rfl, ?_, rfl, ?_, ?_⟩ <;>
    [skip; skip; skip] <;>
    first
    | (unfold zedboardAdjustKwargs
       cases h : (k.cpuType == some "zynq7000") <;> simp [h])
    | (unfold kv260AdjustKwargs
       cases h : (k.cpuType == some "zynqmp") <;> simp [h])

/-- C4 fails as stated: at a CPU report whose DRAM and boot-ROM sizes
are 4096 and 8192 bytes, the KV260 composer still registers the fixed
literal sizes, so the registered sizes are not the CPU-reported ones. -/
theorem C4_counterexample :
    ¬ ((kv260HardCpuRegions
          { sramOrigin := 0, romOrigin := 4278190080,
            dramSize := 4096, romSize := 8192 }).map RegionSpec.size
        = [4096, 8192]) := by
  decide

/-- C4 amended: the registered origins are the CPU-reported /
memory-map origins, but the registered sizes are fixed board-specific
literals — 2 GiB and 64 MiB on the KV260, 512 MiB and 32 MiB on the
Zedboard — and the boot-ROM region is the linker-visible one. -/
theorem C4_amended (cpu : CpuReport) (memMapSram memMapRom : Nat) :
    (kv260HardCpuRegions cpu).map RegionSpec.origin
      = [cpu.sramOrigin, cpu.romOrigin]
  ∧ (kv260HardCpuRegions cpu).map RegionSpec.size
      = [2147483648, 67108864]
  ∧ (kv260HardCpuRegions cpu).map RegionSpec.linker = [false, true]
  ∧ (zedboardHardCpuRegions memMapSram memMapRom).map RegionSpec.origin
      = [memMapSram, memMapRom]
  ∧ (zedboardHardCpuRegions memMapSram memMapRom).map RegionSpec.size
      = [536870912, 33554432]
  ∧ (zedboardHardCpuRegions memMapSram memMapRom).map RegionSpec.linker
      = [false, true] :=
  ⟨rfl, rfl, rfl, rfl, rfl, rfl⟩

/-- C5 fails as stated: in internal-PLL mode the single declared
false-path constraint runs from the generated system clock
(`self.cd_sys.clk`) to `pll.clkin`, not from the reference clock (the
requested default-clock pin) to `pll.clkin`. -/
theorem C5_counterexample :
    (crgInit "ps7"
        { defaultClkName := "clk100", defaultClkFreq := 100000000,
          requested := [], falsePaths := [] }
        100000000 false).2.falsePaths
      ≠ [(Sig.platformPin "clk100", Sig.pllClkin)] := by
  decide

/-- C5 amended: in internal-PLL mode exactly one false-path constraint
is declared, between the generated system clock (`self.cd_sys.clk`) and
the PLL's clock input `pll.clkin`; in external-passthrough mode no
false-path constraint is declared. -/
theorem C5_amended (psDomain : String) (p : Platform) (f : Nat) :
    (crgInit psDomain p f false).2.falsePaths
      = (Sig.clockSignal "sys", Sig.pllClkin) :: p.falsePaths
  ∧ (crgInit psDomain p f true).2.falsePaths = p.falsePaths :=
  ⟨rfl, rfl⟩

/-- C8 fails as stated: on the Zedboard with the hard CPU and the LED
chaser enabled, the LED-chaser peripheral is instantiated after the CRG,
so not every peripheral precedes the CRG. -/
theorem C8_counterexample :
    SoCEvent.peripheralInit "leds" ∈ zedboardEvents (some "zynq7000") true
  ∧ eventIdx (zedboardEvents (some "zynq7000") true) SoCEvent.crgBuild
      < eventIdx (zedboardEvents (some "zynq7000") true)
          (SoCEvent.peripheralInit "leds") := by
  decide

/-- C8 amended: the composers wire Platform, then CPU, then Bus Fabric,
then the integrated peripherals, then the CRG — but on the Zedboard the
LED-chaser peripheral, when enabled, is instantiated after the CRG, not
before it; on the KV260 the CRG is the last construction event. -/
theorem C8_amended (cpuType : Option String) (withLedChaser : Bool) :
    (eventIdx (zedboardEvents cpuType withLedChaser) SoCEvent.platformInit
       < eventIdx (zedboardEvents cpuType withLedChaser) SoCEvent.cpuInit
   ∧ eventIdx (zedboardEvents cpuType withLedChaser) SoCEvent.cpuInit
       < eventIdx (zedboardEvents cpuType withLedChaser)
           SoCEvent.busFabricInit
   ∧ eventIdx (zedboardEvents cpuType withLedChaser) SoCEvent.busFabricInit
       < eventIdx (zedboardEvents cpuType withLedChaser)
           (SoCEvent.peripheralInit "integrated")
   ∧ eventIdx (zedboardEvents cpuType withLedChaser)
         (SoCEvent.peripheralInit "integrated")
       < eventIdx (zedboardEvents cpuType withLedChaser) SoCEvent.crgBuild
   ∧ (if withLedChaser then
        eventIdx (zedboardEvents cpuType withLedChaser) SoCEvent.crgBuild
          < eventIdx (zedboardEvents cpuType withLedChaser)
              (SoCEvent.peripheralInit "leds")
      else True))
  ∧ (eventIdx (kv260Events cpuType) SoCEvent.platformInit
       < eventIdx (kv260Events cpuType) SoCEvent.cpuInit
   ∧ eventIdx (kv260Events cpuType) SoCEvent.cpuInit
       < eventIdx (kv260Events cpuType) SoCEvent.busFabricInit
   ∧ eventIdx (kv260Events cpuType) SoCEvent.busFabricInit
       < eventIdx (kv260Events cpuType)
           (SoCEvent.peripheralInit "integrated")
   ∧ eventIdx (kv260Events cpuType)
         (SoCEvent.peripheralInit "integrated")
       < eventIdx (kv260Events cpuType) SoCEvent.crgBuild
   ∧ (kv260Events cpuType).getLast? = some SoCEvent.crgBuild) := by
  cases h1 : (cpuType == some "zynq7000") <;>
    cases h2 : (cpuType == some "zynqmp") <;>
    cases withLedChaser <;>
    simp only [zedboardEvents, kv260Events, socCoreEvents, h1, h2] <;>
    decide

/-- C9 fails as stated: in internal-PLL mode the CRG mutates the
platform — the default clock pin is consumed via `platform.request` and
a false-path constraint is added to the platform's constraint set, so
the returned platform differs from the one passed in. -/
theorem C9_counterexample :
    (crgInit "ps7"
        { defaultClkName := "clk100", defaultClkFreq := 100000000,
          requested := [], falsePaths := [] }
        100000000 false).2
      ≠ { defaultClkName := "clk100", defaultClkFreq := 100000000,
          requested := [], falsePaths := [] } := by
  decide

/-- C9 amended: in external-passthrough mode the platform is left
unchanged, but in internal-PLL mode CRG construction mutates the
platform in exactly two ways — it consumes the default clock resource
and prepends one false-path constraint — leaving the pin table data
(default clock name and frequency) unchanged. -/
theorem C9_amended (psDomain : String) (p : Platform) (f : Nat) :
    (crgInit psDomain p f true).2 = p
  ∧ (crgInit psDomain p f false).2 =
      { p with
          requested := p.defaultClkName :: p.requested,
          falsePaths := (Sig.clockSignal "sys", Sig.pllClkin)
                          :: p.falsePaths }
  ∧ (crgInit psDomain p f false).2.defaultClkName = p.defaultClkName
  ∧ (crgInit psDomain p f false).2.defaultClkFreq = p.defaultClkFreq :=
  ⟨rfl, rfl, rfl, rfl⟩

theorem addRegion_ok (regs regs2 : List Region) (r : Region)
    (h : addRegion regs r = Except.ok regs2) :
    regs2 = regs ++ [r]
  ∧ regs.all (fun q => disjointB q r) = true := by
  unfold addRegion at h
  split at h
  · exact Except.noConfusion h
  · split at h
    · injection h with h3
      exact ⟨h3.symm, by assumption⟩
    · exact Except.noConfusion h

theorem pairwiseDisjointB_append (regs : List Region) (r : Region)
    (hall : regs.all (fun q => disjointB q r) = true)
    (hd : pairwiseDisjointB regs = true) :
    pairwiseDisjointB (regs ++ [r]) = true := by
  induction regs with
  | nil => simp [pairwiseDisjointB]
  | cons a rest ih =>
    simp only [List.all_cons, Bool.and_eq_true] at hall
    simp only [pairwiseDisjointB, Bool.and_eq_true] at hd
    simp only [List.cons_append, pairwiseDisjointB, List.append_eq,
      List.all_append, List.all_cons, List.all_nil, Bool.and_true,
      Bool.and_eq_true]
    exact ⟨⟨hd.1, hall.1⟩, ih hall.2 hd.2⟩

/-- C6: every region list accepted by `addRegion` stays pairwise
disjoint; the spec scenario holds — SRAM at 0x0 of 512 MiB and ROM at
0x20000000 of 32 MiB are both accepted and disjoint, and a subsequent
region at 0x1FF00000 of 4 KiB is rejected with `RegionConflict`; no
address lies in both accepted regions. -/
theorem C6_region_disjointness (regs regs2 : List Region) (r : Region)
    (x : Nat) (h : addRegion regs r = Except.ok regs2)
    (hd : pairwiseDisjointB regs = true) :
    pairwiseDisjointB regs2 = true
  ∧ addRegion [] sramRegion = Except.ok [sramRegion]
  ∧ addRegion [sramRegion] romRegion = Except.ok [sramRegion, romRegion]
  ∧ addRegion [sramRegion, romRegion] conflictRegion
      = Except.error RegionError.RegionConflict
  ∧ disjointB sramRegion romRegion = true
  ∧ ¬ (inRegion sramRegion x ∧ inRegion romRegion x) := by
  obtain ⟨heq, hall⟩ := addRegion_ok regs regs2 r h
  subst heq
  refine ⟨pairwiseDisjointB_append regs r hall hd, rfl, rfl, rfl, rfl, ?_⟩
  rintro ⟨⟨_, hx1⟩, hx2, _⟩
  simp only [sramRegion, romRegion] at hx1 hx2
  omega

/-- C6 witness: the preservation theorem applied to the empty registry
and the scenario's SRAM region. -/
theorem C6_region_disjointness_witness :
    pairwiseDisjointB [sramRegion] = true
  ∧ addRegion [] sramRegion = Except.ok [sramRegion]
  ∧ addRegion [sramRegion] romRegion = Except.ok [sramRegion, romRegion]
  ∧ addRegion [sramRegion, romRegion] conflictRegion
      = Except.error RegionError.RegionConflict
  ∧ disjointB sramRegion romRegion = true
  ∧ ¬ (inRegion sramRegion 0 ∧ inRegion romRegion 0) :=
  C6_region_disjointness [] [sramRegion] sramRegion 0 (by rfl) (by rfl)

/-- C7: a target frequency the PLL cannot reach makes construction fail
with `UnachievableFrequency`, producing no wiring and no platform
change; every successful construction creates the single output clock at
exactly the requested frequency — the frequency is never clamped. -/
theorem C7_unachievable_frequency (p : Platform) (pll : PllModel)
    (f : Nat) :
    (pllAchievable pll f = false →
      crgInitPllChecked p pll f
        = Except.error ClockError.UnachievableFrequency)
  ∧ (∀ w q, crgInitPllChecked p pll f = Except.ok (w, q) →
      pllAchievable pll f = true ∧ w.clkouts = [("sys", f)]) := by
  constructor
  · intro hna
    unfold crgInitPllChecked
    rw [hna]
    rfl
  · intro w q hok
    unfold crgInitPllChecked at hok
    split at hok
    · injection hok with h2
      refine ⟨by assumption, ?_⟩
      have h3 := congrArg Prod.fst h2
      simp only at h3
      rw [← h3]
    · exact Except.noConfusion hok

/-- C7 witness: a PLL supporting only the 1:1 cover of a 100 MHz
reference rejects a 7 Hz request with `UnachievableFrequency`, and its
successful 100 MHz construction creates exactly the requested output
clock. -/
theorem C7_unachievable_frequency_witness :
    crgInitPllChecked
        { defaultClkName := "clk100", defaultClkFreq := 100000000,
          requested := [], falsePaths := [] }
        { refFreq := 100000000, supported := [(10, 10)] } 7
      = Except.error ClockError.UnachievableFrequency
  ∧ (pllAchievable { refFreq := 100000000, supported := [(10, 10)] }
        100000000 = true
   ∧ ({ resetDriver := Sig.crgRst,
        clkin := (Sig.platformPin "clk100", 100000000),
        clkouts := [("sys", 100000000)] } : PllWiring).clkouts
       = [("sys", 100000000)]) :=
  ⟨(C7_unachievable_frequency
      { defaultClkName := "clk100", defaultClkFreq := 100000000,
        requested := [], falsePaths := [] }
      { refFreq := 100000000, supported := [(10, 10)] } 7).1 (by decide),
   (C7_unachievable_frequency
      { defaultClkName := "clk100", defaultClkFreq := 100000000,
        requested := [], falsePaths := [] }
      { refFreq := 100000000, supported := [(10, 10)] } 100000000).2
     { resetDriver := Sig.crgRst,
       clkin := (Sig.platformPin "clk100", 100000000),
       clkouts := [("sys", 100000000)] }
     { defaultClkName := "clk100", defaultClkFreq := 100000000,
       requested := ["clk100"],
       falsePaths := [(Sig.clockSignal "sys", Sig.pllClkin)] }
     (by rfl)⟩
